import Mathlib

set_option maxRecDepth 8000

/-!
Formal model of the request-validation and scoring service in `hw004`
(`fields.py`, `requests.py`, `scoring.py`, `store.py`, `api.py`).

Python values are embedded as `PyVal`; dates as proleptic-Gregorian
triples with a `toordinal`-style day count; fallible validators return
`Except`; the redis-backed store is modelled both as a retrying client
over an abstract flaky backend (`store.py`) and as an in-memory cache
state for the scoring algorithm (`scoring.py`).  External library
primitives (`hashlib.sha512`/`md5`, `json.loads`) are taken as
function parameters.
-/

/-- Calendar date, the payload of a `datetime` produced by
`strptime("%d.%m.%Y")`. -/
structure Date where
  year : Nat
  month : Nat
  day : Nat
  deriving DecidableEq, Repr

/-- The subset of Python values that flows through the validators. -/
inductive PyVal where
  | none
  | bool (b : Bool)
  | int (n : Int)
  | str (s : String)
  | list (xs : List PyVal)
  | tuple (xs : List PyVal)
  | dict (entries : List (String × PyVal))
  | date (d : Date)
  deriving Repr

/-- Python `value is None`. -/
def pyIsNone : PyVal → Bool
  | PyVal.none => true
  | _ => false

/-- Python `isinstance(value, str)`. -/
def pyIsStr : PyVal → Bool
  | PyVal.str _ => true
  | _ => false

/-- Python `isinstance(value, int)`; `bool` is a subclass of `int`. -/
def pyIsInstInt : PyVal → Bool
  | PyVal.int _ => true
  | PyVal.bool _ => true
  | _ => false

/-- Python `isinstance(value, list)`. -/
def pyIsList : PyVal → Bool
  | PyVal.list _ => true
  | _ => false

/-- Python `int(value)` on values passing `isinstance(value, int)`. -/
def pyToInt : PyVal → Int
  | PyVal.int n => n
  | PyVal.bool b => if b then 1 else 0
  | _ => 0

/-- Membership in `Field.empty_values = ('', [], (), {})`, decided with
Python equality: only the four canonical empty containers compare equal
to a member of that tuple. -/
def isEmptyVal : PyVal → Bool
  | PyVal.str s => s.isEmpty
  | PyVal.list xs => xs.isEmpty
  | PyVal.tuple xs => xs.isEmpty
  | PyVal.dict xs => xs.isEmpty
  | _ => false

/-- Python truthiness of the embedded values. -/
def pyTruthy : PyVal → Bool
  | PyVal.none => false
  | PyVal.bool b => b
  | PyVal.int n => n != 0
  | PyVal.str s => !s.isEmpty
  | PyVal.list xs => !xs.isEmpty
  | PyVal.tuple xs => !xs.isEmpty
  | PyVal.dict xs => !xs.isEmpty
  | PyVal.date _ => true

/-- Python `dict.get(name, None)` over a string-keyed mapping. -/
def lookupD : List (String × PyVal) → String → PyVal
  | [], _ => PyVal.none
  | (k, v) :: rest, key => if k == key then v else lookupD rest key

/-- Leap year in the Gregorian calendar (`calendar.isleap`). -/
def isLeap (y : Nat) : Bool :=
  (y % 4 == 0 && y % 100 != 0) || y % 400 == 0

/-- Length of a month, as enforced by the `datetime` constructor. -/
def monthLen (y : Nat) (m : Nat) : Nat :=
  if m == 2 then (if isLeap y then 29 else 28)
  else if m == 4 || m == 6 || m == 9 || m == 11 then 30
  else 31

/-- Days strictly before month `m` in a year of the given leapness. -/
def daysBeforeMonth (leap : Bool) (m : Nat) : Nat :=
  let extra : Nat := if leap then 1 else 0
  match m with
  | 1 => 0
  | 2 => 31
  | 3 => 59 + extra
  | 4 => 90 + extra
  | 5 => 120 + extra
  | 6 => 151 + extra
  | 7 => 181 + extra
  | 8 => 212 + extra
  | 9 => 243 + extra
  | 10 => 273 + extra
  | 11 => 304 + extra
  | _ => 334 + extra

/-- Python `date.toordinal`: day 1 is 0001-01-01; timedelta `.days`
between two dates is the difference of their ordinals. -/
def rataDie (dt : Date) : Nat :=
  let y := dt.year - 1
  365 * y + y / 4 - y / 100 + y / 400 + daysBeforeMonth (isLeap dt.year) dt.month + dt.day

/-- Split a character list on `.` (enough of the `%d.%m.%Y` format
structure: the digit groups of the format never contain a dot). -/
def splitDots : List Char → List (List Char)
  | [] => [[]]
  | c :: rest =>
    let r := splitDots rest
    if c == '.' then [] :: r
    else
      match r with
      | h :: t => (c :: h) :: t
      | [] => [[c]]

/-- Numeric value of a nonempty all-digit character group. -/
def digitsToNat : List Char → Option Nat
  | [] => Option.none
  | cs =>
    if cs.all Char.isDigit then
      Option.some (cs.foldl (fun a c => a * 10 + (c.toNat - 48)) 0)
    else Option.none

/-- `datetime.strptime(s, "%d.%m.%Y")`: day and month are 1-2 digit
groups bounded by the format regex (1..31, 1..12), the year is exactly
four digits; the `datetime` constructor then rejects year 0 and a day
beyond the month length.  Returns the parsed date, `none` meaning the
call raises `ValueError`. -/
def parseDMY (s : String) : Option Date :=
  match splitDots s.data with
  | [ds, ms, ys] =>
    match digitsToNat ds, digitsToNat ms, digitsToNat ys with
    | Option.some d, Option.some m, Option.some y =>
      if ds.length ≤ 2 && 1 ≤ d && d ≤ 31 &&
         ms.length ≤ 2 && 1 ≤ m && m ≤ 12 &&
         ys.length == 4 && 1 ≤ y && d ≤ monthLen y m
      then Option.some ⟨y, m, d⟩ else Option.none
    | _, _, _ => Option.none
  | _ => Option.none

example : parseDMY "21.05.1948" = Option.some ⟨1948, 5, 21⟩ := by decide
example : parseDMY "31.06.2018" = Option.none := by decide
example : rataDie ⟨2018, 5, 20⟩ - rataDie ⟨1948, 5, 21⟩ = 25566 := by decide

/-- A single quote character (used when reproducing Python `str()` of
string lists in error messages). -/
def sglQuote : String := ⟨[Char.ofNat 39]⟩

/-- Python `str(value)` as far as the phone regex can observe it.
Container and `datetime` renderings are abbreviated: they begin with a
bracket, a quote or a year and can never match `^7[0-9]{10}$`, and no
theorem inspects these message fragments. -/
def pyFormat : PyVal → String
  | PyVal.none => "None"
  | PyVal.bool b => if b then "True" else "False"
  | PyVal.int n => toString n
  | PyVal.str s => s
  | PyVal.list _ => "[...]"
  | PyVal.tuple _ => "(...)"
  | PyVal.dict _ => "\x7b...\x7d"
  | PyVal.date d => toString d.year ++ "-" ++ toString d.month ++ "-" ++ toString d.day

/-- Core of `^7[0-9]{10}$` on a character list: eleven characters, all
ASCII digits, the first being `7`. -/
def phoneChars (cs : List Char) : Bool :=
  cs.length == 11 && cs.all Char.isDigit && cs.headD 'x' == '7'

/-- `re.compile("^7[0-9]{10}$").match(s) is not None`: in Python `$`
also matches just before one trailing newline. -/
def phoneStrMatch (s : String) : Bool :=
  phoneChars s.data ||
    (s.data.getLast? == Option.some (Char.ofNat 10) && phoneChars s.data.dropLast)

/-- `PhoneField.regex.match(str(value)) is not None`.  `str` of a
container, a bool, `None` or a `datetime` starts with a bracket, a
letter or contains separators, so it never matches. -/
def phoneRegexMatch : PyVal → Bool
  | PyVal.str s => phoneStrMatch s
  | PyVal.int n => phoneStrMatch (toString n)
  | _ => false

/-- The declarative kinds of `Field` subclasses. -/
inductive FieldKind where
  | char
  | email
  | phone
  | date
  | birthday
  | gender
  | clientIds
  | arguments
  deriving DecidableEq, Repr

/-- A declared field: kind plus the `required`/`nullable` flags passed
to `Field.__init__`. -/
structure FieldSpec where
  kind : FieldKind
  required : Bool
  nullable : Bool
  deriving Repr

/-- `Field.validate`: required check, then the empty-value check. -/
def baseValidate (f : FieldSpec) (v : PyVal) : Except String Unit :=
  if pyIsNone v && f.required then Except.error "This field is required."
  else if isEmptyVal v && !f.nullable then Except.error "Empty value is not allowed."
  else Except.ok ()

/-- `CharField.validate` beyond the base checks. -/
def charValidate (v : PyVal) : Except String Unit :=
  if !pyIsNone v && !pyIsStr v then Except.error "This field must be str."
  else Except.ok ()

/-- `EmailField.validate` beyond the char checks (`value` is a string
or `None` once `CharField.validate` passed). -/
def emailValidate (v : PyVal) : Except String Unit :=
  match v with
  | PyVal.str s => if !s.data.contains '@' then Except.error "Email field must include @." else Except.ok ()
  | _ => Except.ok ()

/-- `PhoneField.validate` beyond the base checks. -/
def phoneValidate (v : PyVal) : Except String Unit :=
  if !pyIsNone v && !phoneRegexMatch v then
    Except.error ("Phone number is invalid: " ++ pyFormat v ++ ".")
  else Except.ok ()

/-- `GenderField.validate` beyond the base checks.  `GENDERS` has the
keys 0, 1, 2; `isinstance(value, int)` also admits booleans. -/
def genderValidate (v : PyVal) : Except String Unit :=
  if pyIsNone v then Except.ok ()
  else if !pyIsInstInt v then Except.error "Gender must be a digit."
  else if pyToInt v != 0 && pyToInt v != 1 && pyToInt v != 2 then
    Except.error ("Gender must be equal to [0, 1, 2]")
  else Except.ok ()

/-- `ClientIDsField.validate` beyond the base checks; note the list
check runs even for `None`. -/
def clientIdsValidate (v : PyVal) : Except String Unit :=
  match v with
  | PyVal.list xs =>
    if xs.all pyIsInstInt then Except.ok () else Except.error "Items must be int."
  | _ => Except.error "Field must be a list."

/-- Day-count threshold of `BirthDayField.validate`:
`(datetime.now() - birthdate).days / 365 > 70` with Python true
division.  `.days` is the ordinal difference of the two dates. -/
def birthdayRangeExceeded (now birth : Date) : Bool :=
  decide ((((rataDie now : Int) - (rataDie birth : Int) : Int) : ℚ) / 365 > 70)

/-- Errors of the `api.py` field variants: a `ValidationError` caught
by the request machinery, or an exception of another class that
escapes it (`TypeError` from `strptime` on a non-string). -/
inductive AErr where
  | validation (msg : String)
  | escape (msg : String)
  deriving Repr

/-- `api.py` `DateField.clean`: `validate` raises `ValidationError` on
a parse failure (and lets `strptime`'s `TypeError` escape on a
non-string), then `to_python` re-parses into a `datetime`. -/
def dateCleanA (f : FieldSpec) (v : PyVal) : Except AErr PyVal := do
  (baseValidate f v).mapError AErr.validation
  match v with
  | PyVal.none => Except.ok PyVal.none
  | PyVal.str s =>
    match parseDMY s with
    | Option.some d => Except.ok (PyVal.date d)
    | Option.none => Except.error (AErr.validation "Date must have format: DD.MM.YYYY.")
  | _ => Except.error (AErr.escape "strptime() argument 1 must be str")

/-- `api.py` `BirthDayField.clean`: the date checks, then the 70-year
range check against the current date. -/
def birthdayCleanA (now : Date) (f : FieldSpec) (v : PyVal) : Except AErr PyVal := do
  (baseValidate f v).mapError AErr.validation
  match v with
  | PyVal.none => Except.ok PyVal.none
  | PyVal.str s =>
    match parseDMY s with
    | Option.some d =>
      if birthdayRangeExceeded now d then
        Except.error (AErr.validation "Birthday must be later than 70 years ago.")
      else Except.ok (PyVal.date d)
    | Option.none => Except.error (AErr.validation "Date must have format: DD.MM.YYYY.")
  | _ => Except.error (AErr.escape "strptime() argument 1 must be str")

/-- `fields.py` `DateField.clean`: its `validate` only *returns* the
format message inside the `except ValueError` branch instead of
raising, so a malformed string passes validation and the failure
surfaces as the `ValueError` that `to_python`'s `strptime` raises
(caught as a generic exception by `BaseRequest.is_valid`). -/
def dateCleanR (f : FieldSpec) (v : PyVal) : Except String PyVal := do
  baseValidate f v
  match v with
  | PyVal.none => Except.ok PyVal.none
  | PyVal.str s =>
    match parseDMY s with
    | Option.some d => Except.ok (PyVal.date d)
    | Option.none => Except.error "ValueError: time data does not match format %d.%m.%Y"
  | _ => Except.error "TypeError: strptime() argument 1 must be str"

/-- `fields.py` `BirthDayField.clean`: `DateField.validate` never
raises on a bad format, so `to_python` inside the range check raises
the `ValueError` for malformed strings; for parsed dates the 70-year
range check applies. -/
def birthdayCleanR (now : Date) (f : FieldSpec) (v : PyVal) : Except String PyVal := do
  baseValidate f v
  match v with
  | PyVal.none => Except.ok PyVal.none
  | PyVal.str s =>
    match parseDMY s with
    | Option.some d =>
      if birthdayRangeExceeded now d then
        Except.error "Birthday must be later than 70 years ago."
      else Except.ok (PyVal.date d)
    | Option.none => Except.error "ValueError: time data does not match format %d.%m.%Y"
  | _ => Except.error "TypeError: strptime() argument 1 must be str"

/-- `clean` of the non-date `fields.py`/`api.py` field classes (they
are textually identical in the two files): `validate` then the
identity `to_python`. -/
def coreClean (f : FieldSpec) (v : PyVal) : Except String PyVal := do
  baseValidate f v
  match f.kind with
  | FieldKind.char => charValidate v
  | FieldKind.email => do charValidate v; emailValidate v
  | FieldKind.phone => phoneValidate v
  | FieldKind.gender => genderValidate v
  | FieldKind.clientIds => clientIdsValidate v
  | _ => Except.ok ()
  Except.ok v

/-- `Field.clean` dispatch, `fields.py` flavour (all exceptions are
caught alike by `requests.BaseRequest.is_valid`, so a single error
string suffices). -/
def fieldCleanR (now : Date) (f : FieldSpec) (v : PyVal) : Except String PyVal :=
  match f.kind with
  | FieldKind.date => dateCleanR f v
  | FieldKind.birthday => birthdayCleanR now f v
  | _ => coreClean f v

/-- `Field.clean` dispatch, `api.py` flavour (`ValidationError` is
caught by the request machinery, anything else escapes). -/
def fieldCleanA (now : Date) (f : FieldSpec) (v : PyVal) : Except AErr PyVal :=
  match f.kind with
  | FieldKind.date => dateCleanA f v
  | FieldKind.birthday => birthdayCleanA now f v
  | _ => (coreClean f v).mapError AErr.validation

example : coreClean ⟨FieldKind.phone, true, false⟩ (PyVal.str "79104823345") =
    Except.ok (PyVal.str "79104823345") := rfl
example : coreClean ⟨FieldKind.phone, true, false⟩ (PyVal.int 79104823345) =
    Except.ok (PyVal.int 79104823345) := rfl
example : (coreClean ⟨FieldKind.phone, true, false⟩ (PyVal.str "89104823345")).isOk = false := by decide

/-- Error entry pushed by `requests.BaseRequest.is_valid`:
`'Field: {0}. {1}'.format(name, e)`. -/
def fmtFieldError (name msg : String) : String :=
  "Field: " ++ name ++ ". " ++ msg

/-- The per-field loop of `requests.BaseRequest.is_valid`: every
declared field is cleaned against `data.get(name, None)`; successes
populate `cleaned_data`, failures append one formatted error; no field
aborts the loop. -/
def cleanFields (now : Date) : List (String × FieldSpec) → List (String × PyVal) →
    List (String × PyVal) × List String
  | [], _ => ([], [])
  | (n, f) :: rest, data =>
    let r := cleanFields now rest data
    match fieldCleanR now f (lookupD data n) with
    | Except.ok v => ((n, v) :: r.1, r.2)
    | Except.error e => (r.1, fmtFieldError n e :: r.2)

/-- `requests.BaseRequest.is_valid` returns `True` iff no error was
collected. -/
def baseIsValid (now : Date) (fields : List (String × FieldSpec))
    (data : List (String × PyVal)) : Bool :=
  (cleanFields now fields data).2.isEmpty

/-- The field registry of `OnlineScoreRequest`, in declaration
order. -/
def osrFields : List (String × FieldSpec) :=
  [("first_name", ⟨FieldKind.char, false, true⟩),
   ("last_name", ⟨FieldKind.char, false, true⟩),
   ("email", ⟨FieldKind.email, false, true⟩),
   ("phone", ⟨FieldKind.phone, false, true⟩),
   ("birthday", ⟨FieldKind.birthday, false, true⟩),
   ("gender", ⟨FieldKind.gender, false, true⟩)]

/-- `OnlineScoreRequest.valid_combinations`. -/
def validCombinations : List (List String) :=
  [["phone", "email"], ["first_name", "last_name"], ["gender", "birthday"]]

/-- The combination loop: a combination counts when none of its members
is `None` in the cleaned mapping (`cleaned_data.get(field_name) is
None` checks both absence and an explicit `None`). -/
def comboSat (cd : List (String × PyVal)) : Bool :=
  validCombinations.any (fun cmb => cmb.all (fun n => !pyIsNone (lookupD cd n)))

/-- The aggregate combination error message, with Python `str()` of the
list of combinations spelled out. -/
def comboErrorMsg : String :=
  "Online score request must include at least one not null combination: [[" ++
    sglQuote ++ "phone" ++ sglQuote ++ ", " ++ sglQuote ++ "email" ++ sglQuote ++ "], [" ++
    sglQuote ++ "first_name" ++ sglQuote ++ ", " ++ sglQuote ++ "last_name" ++ sglQuote ++ "], [" ++
    sglQuote ++ "gender" ++ sglQuote ++ ", " ++ sglQuote ++ "birthday" ++ sglQuote ++ "]]"

/-- `requests.OnlineScoreRequest.is_valid`: field-level validation
first; on success, accept iff some combination is fully present,
otherwise append the single aggregate error.  Returns the verdict
together with `cleaned_data` and `errors`. -/
def osrIsValidR (now : Date) (data : List (String × PyVal)) :
    Bool × List (String × PyVal) × List String :=
  let r := cleanFields now osrFields data
  if r.2.isEmpty then
    if comboSat r.1 then (true, r.1, r.2)
    else (false, r.1, r.2 ++ [comboErrorMsg])
  else (false, r.1, r.2)

/-- The field registry of `MethodRequest`, in declaration order. -/
def msrFields : List (String × FieldSpec) :=
  [("account", ⟨FieldKind.char, false, true⟩),
   ("login", ⟨FieldKind.char, true, true⟩),
   ("token", ⟨FieldKind.char, true, true⟩),
   ("arguments", ⟨FieldKind.arguments, true, true⟩),
   ("method", ⟨FieldKind.char, true, false⟩)]

/-- Read a cleaned `CharField` value as a string (after successful
validation `login` and `token` are strings; the default branch is
unreachable there). -/
def asStr : PyVal → String
  | PyVal.str s => s
  | _ => ""

/-- `check_auth`: for `login == "admin"` the digest hashes the current
hour string plus `ADMIN_SALT = "42"`, otherwise `account + login +
SALT` with `SALT = "Otus"`.  A non-admin request whose `account` is
`None` raises `TypeError` from the string concatenation, modelled as
the `Except.error` branch.  `sha512hex` stands for
`hashlib.sha512(...).hexdigest()`. -/
def checkAuth (sha512hex : String → String) (nowHour : String)
    (account : PyVal) (login token : String) : Except Unit Bool :=
  if login == "admin" then
    Except.ok (sha512hex (nowHour ++ "42") == token)
  else
    match account with
    | PyVal.str a => Except.ok (sha512hex (a ++ login ++ "Otus") == token)
    | _ => Except.error ()

/-- Outcome of one backend (redis) call: a value, or a transient
`ConnectionError`/`TimeoutError`. -/
inductive RResult (α : Type) where
  | ok (v : α)
  | conn

/-- The `while i <= self.reconnect_attempts` loop of
`Store.execute_with_reconnect`, with the backend as a map from
zero-based call index to outcome.  The second component counts backend
calls; `Except.error` is the re-raise at the last attempt; falling
through the loop (zero attempts) returns `None`. -/
def ewrGo {α : Type} (backend : Nat → RResult α) : Nat → Nat → Except Unit (Option α) × Nat
  | calls, 0 => (Except.ok Option.none, calls)
  | calls, fuel + 1 =>
    match backend calls with
    | RResult.ok v => (Except.ok (Option.some v), calls + 1)
    | RResult.conn =>
      if fuel = 0 then (Except.error (), calls + 1)
      else ewrGo backend (calls + 1) fuel

/-- `Store.execute_with_reconnect(method, *args)`. -/
def executeWithReconnect {α : Type} (attempts : Nat) (backend : Nat → RResult α) :
    Except Unit (Option α) × Nat :=
  ewrGo backend 0 attempts

/-- `Store.cache_get`: retries `redis.get`; a `None` reply passes
through, a string reply is `json.loads`-decoded (`decode` stands for
`json.loads`), and an exhausted retry budget is caught and turned into
`None`. -/
def cacheGetM {α : Type} (attempts : Nat) (decode : String → α)
    (backend : Nat → RResult (Option String)) : Option α × Nat :=
  match executeWithReconnect attempts backend with
  | (Except.error _, n) => (Option.none, n)
  | (Except.ok Option.none, n) => (Option.none, n)
  | (Except.ok (Option.some Option.none), n) => (Option.none, n)
  | (Except.ok (Option.some (Option.some s)), n) => (Option.some (decode s), n)

/-- `Store.cache_set`: retries `redis.set`; an exhausted retry budget
is caught and turned into `None`. -/
def cacheSetM (attempts : Nat) (backend : Nat → RResult Bool) : Option Bool × Nat :=
  match executeWithReconnect attempts backend with
  | (Except.error _, n) => (Option.none, n)
  | (Except.ok r, n) => (r, n)

/-- `Store.get`: retries `redis.lrange` and lets the final failure
propagate. -/
def getListM (attempts : Nat) (backend : Nat → RResult (List String)) :
    Except Unit (Option (List String)) × Nat :=
  executeWithReconnect attempts backend

example : cacheGetM 3 (fun s => s)
    (fun i => if i == 0 then RResult.conn else RResult.ok (Option.some "1.5")) =
    (Option.some "1.5", 2) := rfl
example : getListM 2 (fun _ => RResult.conn) = (Except.error (), 2) := rfl

/-- In-memory model of a functioning store for the scoring claims:
the cache contents plus counters of `cache_get`/`cache_set` calls.
Scores are rationals; the Python floats involved are small multiples
of 0.5, on which float arithmetic is exact. -/
structure StoreState where
  cache : List (String × ℚ)
  getCount : Nat
  setCount : Nat

/-- A store with an empty cache and untouched counters. -/
def emptyStore : StoreState := ⟨[], 0, 0⟩

/-- Key lookup in the cache contents. -/
def lookupQ : List (String × ℚ) → String → Option ℚ
  | [], _ => Option.none
  | (k, v) :: rest, key => if k == key then Option.some v else lookupQ rest key

/-- `store.cache_get(key)` against a functioning backend: the stored
value (or absence), and the get-counter bumped. -/
def StoreState.cacheGet (st : StoreState) (key : String) : Option ℚ × StoreState :=
  (lookupQ st.cache key, { st with getCount := st.getCount + 1 })

/-- `store.cache_set(key, value, ttl)` against a functioning backend:
the entry is (over)written and the set-counter bumped. -/
def StoreState.cacheSet (st : StoreState) (key : String) (v : ℚ) : StoreState :=
  { st with cache := (key, v) :: st.cache, setCount := st.setCount + 1 }

/-- The arguments of `scoring.get_score`, at the types the callers
supply: `phone` and `gender` arrive as raw cleaned values, `email` and
the names as strings or `None`, `birthday` as a parsed date or
`None`. -/
structure ScoreArgs where
  phone : PyVal
  email : Option String
  birthday : Option Date
  gender : PyVal
  firstName : Option String
  lastName : Option String

/-- `birthday.strftime("%Y%m%d")`: zero-padded year, month, day. -/
def fmtYmd (d : Date) : String :=
  let pad : Nat → Nat → String := fun width n =>
    let s := toString n
    String.mk (List.replicate (width - s.length) '0') ++ s
  pad 4 d.year ++ pad 2 d.month ++ pad 2 d.day

/-- The hashed key material of `get_score`: `first_name or ""`,
`last_name or ""`, and the formatted birthday, concatenated. -/
def keyMaterial (a : ScoreArgs) : String :=
  (a.firstName.getD "") ++ (a.lastName.getD "") ++
    (match a.birthday with
     | Option.some d => fmtYmd d
     | Option.none => "")

/-- The cache key `"uid:" + md5(material).hexdigest()`; `md5hex`
stands for the md5 hex digest. -/
def scoreKey (md5hex : String → String) (a : ScoreArgs) : String :=
  "uid:" ++ md5hex (keyMaterial a)

/-- Python truthiness of an optional string argument. -/
def optStrTruthy : Option String → Bool
  | Option.some s => !s.isEmpty
  | Option.none => false

/-- `scoring.get_score`: read the cache (`cache_get(key) or 0`), on a
non-zero hit return it unchanged, otherwise accumulate the weighted
sum over truthiness of the arguments, write it to the cache and return
it. -/
def getScore (md5hex : String → String) (st : StoreState) (a : ScoreArgs) :
    ℚ × StoreState :=
  let key := scoreKey md5hex a
  let r := st.cacheGet key
  let score : ℚ :=
    match r.1 with
    | Option.some v => if v == 0 then 0 else v
    | Option.none => 0
  if score != 0 then (score, r.2)
  else
    let s : ℚ :=
      (if pyTruthy a.phone then 3/2 else 0) +
      (if optStrTruthy a.email then 3/2 else 0) +
      (if a.birthday.isSome && pyTruthy a.gender then 3/2 else 0) +
      (if optStrTruthy a.firstName && optStrTruthy a.lastName then 1/2 else 0)
    (s, r.2.cacheSet key s)

/-- The per-field loop of `api.BaseRequest.clean_fields`: every field
is cleaned; a `ValidationError` stores `None` for the attribute and
records the error; any other exception (the `strptime` `TypeError`)
aborts the loop and escapes. -/
def cleanFieldsA (now : Date) : List (String × FieldSpec) → List (String × PyVal) →
    Except String (List (String × PyVal) × List (String × String))
  | [], _ => Except.ok ([], [])
  | (n, f) :: rest, data =>
    match fieldCleanA now f (lookupD data n) with
    | Except.error (AErr.escape m) => Except.error m
    | Except.error (AErr.validation e) =>
      match cleanFieldsA now rest data with
      | Except.error m => Except.error m
      | Except.ok (cd, errs) => Except.ok ((n, PyVal.none) :: cd, (n, e) :: errs)
    | Except.ok v =>
      match cleanFieldsA now rest data with
      | Except.error m => Except.error m
      | Except.ok (cd, errs) => Except.ok ((n, v) :: cd, errs)

/-- `api.OnlineScoreRequest.is_valid`: clean all fields (attributes of
failed fields are `None`), then run the combination check over the
attributes; the request is valid iff there are neither field errors
nor a combination failure.  `Except.error` is an escaped non-
`ValidationError` exception. -/
def osrIsValidA (now : Date) (data : List (String × PyVal)) :
    Except String (Bool × List (String × PyVal)) :=
  match cleanFieldsA now osrFields data with
  | Except.error m => Except.error m
  | Except.ok (cd, errs) => Except.ok (errs.isEmpty && comboSat cd, cd)

/-- Response payloads of the score handler. -/
inductive Resp where
  | score (q : ℚ)
  | errors

/-- Rebuild `get_score`'s arguments from the cleaned attributes, as
`api.OnlineScoreRequest.handler` passes them. -/
def argsOfCleaned (cd : List (String × PyVal)) : ScoreArgs :=
  { phone := lookupD cd "phone",
    email := match lookupD cd "email" with
      | PyVal.str s => Option.some s
      | _ => Option.none,
    birthday := match lookupD cd "birthday" with
      | PyVal.date d => Option.some d
      | _ => Option.none,
    gender := lookupD cd "gender",
    firstName := match lookupD cd "first_name" with
      | PyVal.str s => Option.some s
      | _ => Option.none,
    lastName := match lookupD cd "last_name" with
      | PyVal.str s => Option.some s
      | _ => Option.none }

/-- `api.OnlineScoreRequest.handler`: on invalid arguments answer 422;
for the admin identity answer the fixed `{"score": 42}` without
touching the store; otherwise compute `get_score` against the
store. -/
def osrHandlerA (md5hex : String → String) (now : Date)
    (data : List (String × PyVal)) (st : StoreState) (isAdmin : Bool) :
    Except String ((Resp × Nat) × StoreState) :=
  match osrIsValidA now data with
  | Except.error m => Except.error m
  | Except.ok (false, _) => Except.ok ((Resp.errors, 422), st)
  | Except.ok (true, cd) =>
    if isAdmin then Except.ok ((Resp.score 42, 200), st)
    else
      let r := getScore md5hex st (argsOfCleaned cd)
      Except.ok ((Resp.score r.1, 200), r.2)

/-- The entries of a cleaned `arguments` value. -/
def dictEntries : PyVal → List (String × PyVal)
  | PyVal.dict entries => entries
  | _ => []

/-- `api.method_handler`: empty body answers 422; a valid
`MethodRequest` is authenticated (`check_auth` runs before dispatch
and its `TypeError` escapes), a failed authentication answers 403, and
the method name selects the score or interests handler (`osH`/`ciH`
abstract the two handlers), unknown names answering 404. -/
def methodHandler (sha512hex : String → String) (nowHour : String) (now : Date)
    (osH : List (String × PyVal) → Bool → Except Unit (Option Resp × Nat))
    (ciH : List (String × PyVal) → Except Unit (Option Resp × Nat))
    (body : List (String × PyVal)) : Except Unit (Option Resp × Nat) :=
  if body.isEmpty then Except.ok (Option.none, 422)
  else
    let r := cleanFields now msrFields body
    if r.2.isEmpty then
      match checkAuth sha512hex nowHour (lookupD r.1 "account")
          (asStr (lookupD r.1 "login")) (asStr (lookupD r.1 "token")) with
      | Except.error e => Except.error e
      | Except.ok false => Except.ok (Option.none, 403)
      | Except.ok true =>
        match lookupD r.1 "method" with
        | PyVal.str "online_score" =>
          osH (dictEntries (lookupD r.1 "arguments")) (asStr (lookupD r.1 "login") == "admin")
        | PyVal.str "clients_interests" =>
          ciH (dictEntries (lookupD r.1 "arguments"))
        | _ => Except.ok (Option.none, 404)
    else Except.ok (Option.none, 422)

/-- The status code `MainHTTPHandler.do_POST` reports: an exception
escaping the handler is caught and answered as 500. -/
def doPostCode (r : Except Unit (Option Resp × Nat)) : Nat :=
  match r with
  | Except.error _ => 500
  | Except.ok (_, c) => c

/-- A current date used to instantiate theorems with hypotheses. -/
def nowMay2018 : Date := ⟨2018, 5, 20⟩

/-- The gender-0 scoring arguments: phone, birthday and gender are all
present (non-`None`) but the gender code is 0. -/
def cexC2 : ScoreArgs :=
  ⟨PyVal.str "79104823345", Option.none, Option.some ⟨2000, 1, 1⟩, PyVal.int 0,
   Option.none, Option.none⟩

/-- Scoring arguments with every field absent. -/
def allAbsentArgs : ScoreArgs :=
  ⟨PyVal.none, Option.none, Option.none, PyVal.none, Option.none, Option.none⟩

/-- Scoring arguments with only the phone present. -/
def phoneOnlyArgs : ScoreArgs :=
  ⟨PyVal.str "79104823345", Option.none, Option.none, PyVal.none, Option.none, Option.none⟩

/-- Spec-modelled presence score, following the claim's words: +1.5
when phone is present (non-`None`), +1.5 when email is present, +1.5
when both birthday and gender are present (explicitly including gender
code 0), +0.5 when both names are present. -/
def presenceScoreSpec (a : ScoreArgs) : ℚ :=
  (if pyIsNone a.phone then 0 else 3/2) +
  (if a.email.isSome then 3/2 else 0) +
  (if a.birthday.isSome && !pyIsNone a.gender then 3/2 else 0) +
  (if a.firstName.isSome && a.lastName.isSome then 1/2 else 0)

/-- Online-score arguments satisfying the phone/email combination. -/
def osrDataPhoneEmail : List (String × PyVal) :=
  [("phone", PyVal.str "79104823345"), ("email", PyVal.str "a@b.com")]

/-- Online-score arguments with only an email. -/
def osrDataEmailOnly : List (String × PyVal) :=
  [("email", PyVal.str "a@b.com")]

/-- A valid method-request body whose optional `account` is absent and
whose login is not the admin login. -/
def bodyNoAccount : List (String × PyVal) :=
  [("login", PyVal.str "h&f"), ("token", PyVal.str "x"),
   ("arguments", PyVal.dict []), ("method", PyVal.str "online_score")]

/-- Valid admin online-score arguments for the admin-handler claim. -/
def osrDataC9 : List (String × PyVal) :=
  [("phone", PyVal.str "79175002040"), ("email", PyVal.str "stupnikov@otus.ru")]

/-- C1: Phone field normalization.  The code keeps integer input as an
integer: `PhoneField` inherits the identity `Field.to_python`, so
`clean(79104823345)` returns the integer `79104823345`, not the string
`"79104823345"` that the claim (and the repository's own
`test_ok_phone_field`) expects; string input and the two rejection
cases behave as claimed. -/
theorem C1_phone_int_not_normalized :
    coreClean ⟨FieldKind.phone, true, false⟩ (PyVal.int 79104823345) =
      Except.ok (PyVal.int 79104823345)
    ∧ (Except.ok (PyVal.int 79104823345) : Except String PyVal) ≠
      Except.ok (PyVal.str "79104823345")
    ∧ coreClean ⟨FieldKind.phone, true, false⟩ (PyVal.str "79104823345") =
      Except.ok (PyVal.str "79104823345")
    ∧ (coreClean ⟨FieldKind.phone, true, false⟩ (PyVal.str "89104823345")).isOk = false
    ∧ (coreClean ⟨FieldKind.phone, true, false⟩ (PyVal.str "7910482334")).isOk = false := by
  refine ⟨rfl, ?_, rfl, rfl, rfl⟩
  intro h
  injection h with h2
  exact PyVal.noConfusion h2

/-- Python true division threshold: `days / 365 > 70` holds exactly
when the integer day difference exceeds `70 * 365 = 25550`. -/
theorem div365_gt_70_iff (d : Int) : ((d : ℚ) / 365 > 70) ↔ d > 25550 := by
  rw [gt_iff_lt, lt_div_iff₀ (by norm_num : (0 : ℚ) < 365)]
  rw [show (70 : ℚ) * 365 = 25550 by norm_num]
  constructor
  · intro h
    exact_mod_cast h
  · intro h
    exact_mod_cast h

/-- The range check of `BirthDayField.validate` in day counts. -/
theorem birthdayRangeExceeded_iff (now b : Date) :
    birthdayRangeExceeded now b = true ↔ (rataDie now : Int) - rataDie b > 25550 := by
  unfold birthdayRangeExceeded
  rw [decide_eq_true_iff]
  exact div365_gt_70_iff _

/-- A string that parses under `%d.%m.%Y` is nonempty. -/
theorem parseDMY_ne_empty {s : String} {b : Date} (h : parseDMY s = Option.some b) :
    s.isEmpty = false := by
  cases hs : s.isEmpty
  · rfl
  · exfalso
    rw [String.isEmpty_iff] at hs
    subst hs
    rw [show parseDMY "" = Option.none from rfl] at h
    exact Option.noConfusion h

/-- C3 (amended): the birthday validator's `clean` succeeds on a
parseable date exactly when the date lies at most `70 * 365 = 25550`
days before the current date — the code divides the day difference by
365, so the rule is a 25550-day threshold, not a 70-calendar-year
one. -/
theorem C3_birthday_day_threshold (now : Date) (req nul : Bool) (s : String) (b : Date)
    (h : parseDMY s = Option.some b) :
    (birthdayCleanR now ⟨FieldKind.birthday, req, nul⟩ (PyVal.str s)).isOk = true ↔
      (rataDie now : Int) - rataDie b ≤ 25550 := by
  have hs := parseDMY_ne_empty h
  have hb := birthdayRangeExceeded_iff now b
  cases hr : birthdayRangeExceeded now b
  · rw [hr] at hb
    simp only [Bool.false_eq_true, false_iff, not_lt, gt_iff_lt] at hb
    simp [birthdayCleanR, baseValidate, pyIsNone, isEmptyVal, hs, h, hr, Except.isOk,
      Except.toBool, Bind.bind, Except.bind]
    omega
  · rw [hr] at hb
    simp only [true_iff, gt_iff_lt] at hb
    simp [birthdayCleanR, baseValidate, pyIsNone, isEmptyVal, hs, h, hr, Except.isOk,
      Except.toBool, Bind.bind, Except.bind]
    omega

/-- C3 counterexample: with the current date 2018-05-20, the birth
date 1948-05-21 lies exactly 70 years minus one day earlier (25566
days), yet `clean` rejects it — the claim says every such boundary
date passes. -/
theorem C3_boundary_counterexample :
    parseDMY "21.05.1948" = Option.some ⟨1948, 5, 21⟩
    ∧ rataDie ⟨2018, 5, 20⟩ - rataDie ⟨1948, 5, 21⟩ = 25566
    ∧ (birthdayCleanR ⟨2018, 5, 20⟩ ⟨FieldKind.birthday, false, true⟩
        (PyVal.str "21.05.1948")).isOk = false := by
  refine ⟨by decide, by decide, ?_⟩
  have hx : birthdayRangeExceeded ⟨2018, 5, 20⟩ ⟨1948, 5, 21⟩ = true :=
    (birthdayRangeExceeded_iff _ _).mpr (by decide)
  simp [birthdayCleanR, baseValidate, pyIsNone, isEmptyVal, hx, Except.isOk, Except.toBool,
    Bind.bind, Except.bind,
    show parseDMY "21.05.1948" = Option.some ⟨1948, 5, 21⟩ from by decide]

/-- Witness for the amended birthday threshold at a concrete input. -/
theorem C3_birthday_day_threshold_witness :
    (birthdayCleanR ⟨2018, 5, 20⟩ ⟨FieldKind.birthday, false, true⟩
      (PyVal.str "01.01.1990")).isOk = true :=
  (C3_birthday_day_threshold ⟨2018, 5, 20⟩ false true "01.01.1990" ⟨1990, 1, 1⟩
    (by decide)).mpr (by decide)

/-- C8: error aggregation without short-circuit.  The validation loop
visits every declared field: the error list is exactly the in-order
image of the failing fields (one formatted entry each), the cleaned
mapping is exactly the in-order image of the succeeding fields, and
`is_valid` answers `true` iff the error list is empty. -/
theorem C8_error_aggregation (now : Date) (fields : List (String × FieldSpec))
    (data : List (String × PyVal)) :
    (cleanFields now fields data).2 = fields.filterMap (fun nf =>
        match fieldCleanR now nf.2 (lookupD data nf.1) with
        | Except.ok _ => Option.none
        | Except.error e => Option.some (fmtFieldError nf.1 e))
    ∧ (cleanFields now fields data).1 = fields.filterMap (fun nf =>
        match fieldCleanR now nf.2 (lookupD data nf.1) with
        | Except.ok v => Option.some (nf.1, v)
        | Except.error _ => Option.none)
    ∧ (baseIsValid now fields data = true ↔ (cleanFields now fields data).2 = []) := by
  have main : (cleanFields now fields data).2 = fields.filterMap (fun nf =>
        match fieldCleanR now nf.2 (lookupD data nf.1) with
        | Except.ok _ => Option.none
        | Except.error e => Option.some (fmtFieldError nf.1 e))
      ∧ (cleanFields now fields data).1 = fields.filterMap (fun nf =>
        match fieldCleanR now nf.2 (lookupD data nf.1) with
        | Except.ok v => Option.some (nf.1, v)
        | Except.error _ => Option.none) := by
    induction fields with
    | nil => exact ⟨rfl, rfl⟩
    | cons hd tl ih =>
      obtain ⟨n, f⟩ := hd
      cases hc : fieldCleanR now f (lookupD data n) with
      | ok v => simpa [cleanFields, List.filterMap_cons, hc] using ih
      | error e => simpa [cleanFields, List.filterMap_cons, hc] using ih
  refine ⟨main.1, main.2, ?_⟩
  unfold baseIsValid
  cases hcf : (cleanFields now fields data).2 <;> simp [hcf]

/-- `pyIsNone` decides being the `None` value. -/
theorem pyIsNone_eq_false {v : PyVal} : pyIsNone v = false ↔ v ≠ PyVal.none := by
  cases v <;> simp [pyIsNone]

/-- The combination check succeeds iff some declared combination has
every member non-`None` in the cleaned mapping. -/
theorem comboSat_iff (cd : List (String × PyVal)) :
    comboSat cd = true ↔
      ∃ cmb ∈ validCombinations, ∀ n ∈ cmb, lookupD cd n ≠ PyVal.none := by
  simp [comboSat, List.any_eq_true, List.all_eq_true, Bool.not_eq_true', pyIsNone_eq_false]

/-- C5: combination constraint of the scoring-arguments shape.  When
field-level validation produced no errors, the request is valid iff
some declared combination is fully present (non-`None`) in the cleaned
mapping; otherwise the single aggregate error naming all valid
combinations is the only error appended. -/
theorem C5_combination_constraint (now : Date) (data : List (String × PyVal))
    (h : (cleanFields now osrFields data).2 = []) :
    ((osrIsValidR now data).1 = true ↔
      ∃ cmb ∈ validCombinations,
        ∀ n ∈ cmb, lookupD (cleanFields now osrFields data).1 n ≠ PyVal.none)
    ∧ ((osrIsValidR now data).1 = false → (osrIsValidR now data).2.2 = [comboErrorMsg]) := by
  have hsat := comboSat_iff (cleanFields now osrFields data).1
  cases hcs : comboSat (cleanFields now osrFields data).1 with
  | true =>
    rw [hcs] at hsat
    constructor
    · simp [osrIsValidR, h, hcs]
      exact hsat.mp rfl
    · intro hfalse
      exfalso
      simp [osrIsValidR, h, hcs] at hfalse
  | false =>
    rw [hcs] at hsat
    have hne : ¬ ∃ cmb ∈ validCombinations,
        ∀ n ∈ cmb, lookupD (cleanFields now osrFields data).1 n ≠ PyVal.none :=
      fun hex => by simpa using hsat.mpr hex
    constructor
    · refine iff_of_false ?_ hne
      simp [osrIsValidR, h, hcs]
    · intro _
      simp [osrIsValidR, h, hcs]

/-- Witness for the combination constraint: phone+email passes, email
alone is rejected with exactly the aggregate combination error. -/
theorem C5_combination_constraint_witness :
    (osrIsValidR nowMay2018 osrDataPhoneEmail).1 = true
    ∧ (osrIsValidR nowMay2018 osrDataEmailOnly).2.2 = [comboErrorMsg] := by
  constructor
  · refine (C5_combination_constraint nowMay2018 osrDataPhoneEmail rfl).1.mpr
      ⟨["phone", "email"], by simp [validCombinations], ?_⟩
    intro n hn
    have hphone : lookupD (cleanFields nowMay2018 osrFields osrDataPhoneEmail).1 "phone" =
        PyVal.str "79104823345" := rfl
    have hemail : lookupD (cleanFields nowMay2018 osrFields osrDataPhoneEmail).1 "email" =
        PyVal.str "a@b.com" := rfl
    simp only [List.mem_cons, List.not_mem_nil, or_false] at hn
    rcases hn with rfl | rfl
    · rw [hphone]
      simp
    · rw [hemail]
      simp
  · exact (C5_combination_constraint nowMay2018 osrDataEmailOnly rfl).2 rfl

/-- Cache-miss behaviour of `get_score`: with no cached non-zero value
under the key, the weighted sum is computed, cached and returned. -/
theorem getScore_miss (md5hex : String → String) (st : StoreState) (a : ScoreArgs)
    (h : lookupQ st.cache (scoreKey md5hex a) = Option.none ∨
         lookupQ st.cache (scoreKey md5hex a) = Option.some 0) :
    getScore md5hex st a =
      ((if pyTruthy a.phone then 3/2 else 0) +
       (if optStrTruthy a.email then 3/2 else 0) +
       (if a.birthday.isSome && pyTruthy a.gender then 3/2 else 0) +
       (if optStrTruthy a.firstName && optStrTruthy a.lastName then 1/2 else 0),
       StoreState.cacheSet { st with getCount := st.getCount + 1 } (scoreKey md5hex a)
         ((if pyTruthy a.phone then 3/2 else 0) +
          (if optStrTruthy a.email then 3/2 else 0) +
          (if a.birthday.isSome && pyTruthy a.gender then 3/2 else 0) +
          (if optStrTruthy a.firstName && optStrTruthy a.lastName then 1/2 else 0))) := by
  rcases h with h | h <;>
    simp [getScore, StoreState.cacheGet, h]

/-- Cache-hit behaviour of `get_score`: a cached non-zero value is
returned unchanged, with no recomputation and no cache write. -/
theorem getScore_hit (md5hex : String → String) (st : StoreState) (a : ScoreArgs) (v : ℚ)
    (hv : lookupQ st.cache (scoreKey md5hex a) = Option.some v) (hnz : v ≠ 0) :
    getScore md5hex st a = (v, { st with getCount := st.getCount + 1 }) := by
  simp [getScore, StoreState.cacheGet, hv, hnz]

/-- C2 counterexample: with an empty cache, phone, birthday and gender
are all present but the gender code is 0; the claim's presence-based
sum predicts 3.0, while `get_score` answers 1.5 because `if birthday
and gender:` treats the falsy gender code 0 as absent. -/
theorem C2_gender_zero_counterexample :
    presenceScoreSpec cexC2 = 3
    ∧ (getScore (fun s => s) emptyStore cexC2).1 = 3/2
    ∧ ((3 : ℚ)/2) ≠ 3 := by
  refine ⟨?_, ?_, by norm_num⟩
  · rw [show presenceScoreSpec cexC2 =
      (0 + 3/2) + (0 : ℚ) + (3/2) + 0 from by
        rw [presenceScoreSpec,
          show pyIsNone cexC2.phone = false from rfl,
          show cexC2.email.isSome = false from rfl,
          show (cexC2.birthday.isSome && !pyIsNone cexC2.gender) = true from rfl,
          show (cexC2.firstName.isSome && cexC2.lastName.isSome) = false from rfl]
        norm_num]
    norm_num
  · rw [getScore_miss (fun s => s) emptyStore cexC2 (Or.inl rfl)]
    rw [show pyTruthy cexC2.phone = true from rfl,
      show optStrTruthy cexC2.email = false from rfl,
      show (cexC2.birthday.isSome && pyTruthy cexC2.gender) = false from rfl,
      show (optStrTruthy cexC2.firstName && optStrTruthy cexC2.lastName) = false from rfl]
    norm_num

/-- C2 (amended): on a cache miss `get_score` returns the truthiness
sum — +1.5 for a truthy phone, +1.5 for a non-empty email, +1.5 when
birthday is present and gender is truthy (so code 0 does not count),
+0.5 when both names are non-empty — and writes exactly that value to
the cache in one `cache_set`. -/
theorem C2_truthy_weights (md5hex : String → String) (st : StoreState) (a : ScoreArgs)
    (h : lookupQ st.cache (scoreKey md5hex a) = Option.none ∨
         lookupQ st.cache (scoreKey md5hex a) = Option.some 0) :
    (getScore md5hex st a).1 =
      (if pyTruthy a.phone then 3/2 else 0) +
      (if optStrTruthy a.email then 3/2 else 0) +
      (if a.birthday.isSome && pyTruthy a.gender then 3/2 else 0) +
      (if optStrTruthy a.firstName && optStrTruthy a.lastName then 1/2 else 0)
    ∧ (getScore md5hex st a).2.setCount = st.setCount + 1
    ∧ lookupQ (getScore md5hex st a).2.cache (scoreKey md5hex a) =
        Option.some ((getScore md5hex st a).1) := by
  rw [getScore_miss md5hex st a h]
  refine ⟨rfl, rfl, ?_⟩
  simp [StoreState.cacheSet, lookupQ]

/-- Witness: with an empty cache and only a phone, the score is 1.5. -/
theorem C2_truthy_weights_witness :
    (getScore (fun s => s) emptyStore phoneOnlyArgs).1 = 3/2 := by
  rw [(C2_truthy_weights (fun s => s) emptyStore phoneOnlyArgs (Or.inl rfl)).1]
  rw [show pyTruthy phoneOnlyArgs.phone = true from rfl,
    show optStrTruthy phoneOnlyArgs.email = false from rfl,
    show (phoneOnlyArgs.birthday.isSome && pyTruthy phoneOnlyArgs.gender) = false from rfl,
    show (optStrTruthy phoneOnlyArgs.firstName && optStrTruthy phoneOnlyArgs.lastName) = false
      from rfl]
  norm_num

/-- C7 counterexample: two identical `get_score` calls with every
argument absent against an initially empty store.  The computed score
is 0; the cached 0 is never treated as a hit (`cache_get(key) or 0`),
so the second call recomputes and performs a second `cache_set` —
`setCount` ends at 2, not the claimed 1. -/
theorem C7_zero_score_counterexample :
    ((getScore (fun s => s) ((getScore (fun s => s) emptyStore allAbsentArgs).2)
        allAbsentArgs).2).setCount = 2
    ∧ (2 : Nat) ≠ 1 := by
  refine ⟨?_, by norm_num⟩
  simp [getScore, StoreState.cacheGet, StoreState.cacheSet, emptyStore, lookupQ,
    allAbsentArgs, pyTruthy, optStrTruthy]

/-- C7 (amended): a cached non-zero value short-circuits `get_score`
(no computation, no write); and when the cache is empty under the key
and the computed score is non-zero, a second identical call is served
from the cache, so the two calls perform exactly one `cache_set`.
With a computed score of zero the second call recomputes and
rewrites (see the counterexample). -/
theorem C7_cache_hit_write_once (md5hex : String → String) :
    (∀ (st : StoreState) (a : ScoreArgs) (v : ℚ),
      lookupQ st.cache (scoreKey md5hex a) = Option.some v → v ≠ 0 →
      (getScore md5hex st a).1 = v
      ∧ (getScore md5hex st a).2.cache = st.cache
      ∧ (getScore md5hex st a).2.setCount = st.setCount)
    ∧ (∀ (st : StoreState) (a : ScoreArgs),
      lookupQ st.cache (scoreKey md5hex a) = Option.none →
      (getScore md5hex st a).1 ≠ 0 →
      (getScore md5hex ((getScore md5hex st a).2) a).1 = (getScore md5hex st a).1
      ∧ ((getScore md5hex ((getScore md5hex st a).2) a).2).setCount = st.setCount + 1) := by
  constructor
  · intro st a v hv hnz
    rw [getScore_hit md5hex st a v hv hnz]
    exact ⟨rfl, rfl, rfl⟩
  · intro st a h0 hnz
    have h2 : lookupQ ((getScore md5hex st a).2).cache (scoreKey md5hex a) =
        Option.some ((getScore md5hex st a).1) := by
      rw [getScore_miss md5hex st a (Or.inl h0)]
      simp [StoreState.cacheSet, lookupQ]
    have h3 := getScore_hit md5hex ((getScore md5hex st a).2) a ((getScore md5hex st a).1)
      h2 hnz
    refine ⟨by rw [h3], ?_⟩
    rw [h3]
    show ((getScore md5hex st a).2).setCount = st.setCount + 1
    rw [getScore_miss md5hex st a (Or.inl h0)]
    rfl

/-- Witness: phone-only arguments give the non-zero score 1.5, and the
two identical calls against an empty store write the cache once. -/
theorem C7_cache_hit_write_once_witness :
    (getScore (fun s => s) ((getScore (fun s => s) emptyStore phoneOnlyArgs).2)
        phoneOnlyArgs).1 = (getScore (fun s => s) emptyStore phoneOnlyArgs).1
    ∧ ((getScore (fun s => s) ((getScore (fun s => s) emptyStore phoneOnlyArgs).2)
        phoneOnlyArgs).2).setCount = emptyStore.setCount + 1 := by
  refine (C7_cache_hit_write_once (fun s => s)).2 emptyStore phoneOnlyArgs rfl ?_
  rw [getScore_miss (fun s => s) emptyStore phoneOnlyArgs (Or.inl rfl)]
  rw [show pyTruthy phoneOnlyArgs.phone = true from rfl,
    show optStrTruthy phoneOnlyArgs.email = false from rfl,
    show (phoneOnlyArgs.birthday.isSome && pyTruthy phoneOnlyArgs.gender) = false from rfl,
    show (optStrTruthy phoneOnlyArgs.firstName && optStrTruthy phoneOnlyArgs.lastName) = false
      from rfl]
  norm_num

/-- If every attempt hits a transient failure, the retry loop re-raises
at the last attempt after exactly `fuel` backend calls. -/
theorem ewrGo_all_conn {α : Type} (backend : Nat → RResult α) :
    ∀ (fuel calls : Nat), 1 ≤ fuel →
    (∀ i, i < fuel → backend (calls + i) = RResult.conn) →
    ewrGo backend calls fuel = (Except.error (), calls + fuel) := by
  intro fuel
  induction fuel with
  | zero => intro calls h; omega
  | succ f ih =>
    intro calls _ hconn
    have h0 : backend calls = RResult.conn := by
      have := hconn 0 (by omega)
      simpa using this
    by_cases hf : f = 0
    · subst hf
      simp [ewrGo, h0]
    · have hstep : ewrGo backend calls (f + 1) = ewrGo backend (calls + 1) f := by
        simp [ewrGo, h0, hf]
      rw [hstep, ih (calls + 1) (by omega) (fun i hi => by
        rw [show calls + 1 + i = calls + (i + 1) by omega]
        exact hconn (i + 1) (by omega))]
      rw [show calls + 1 + f = calls + (f + 1) by omega]

/-- If the first `k` attempts fail transiently and attempt `k` (with
`k < fuel`) succeeds, the retry loop returns that success after
exactly `k + 1` backend calls. -/
theorem ewrGo_first_success {α : Type} (backend : Nat → RResult α) (v : α) :
    ∀ (k fuel calls : Nat), k < fuel →
    (∀ i, i < k → backend (calls + i) = RResult.conn) →
    backend (calls + k) = RResult.ok v →
    ewrGo backend calls fuel = (Except.ok (Option.some v), calls + k + 1) := by
  intro k
  induction k with
  | zero =>
    intro fuel calls hk _ hok
    cases fuel with
    | zero => omega
    | succ f =>
      simp only [Nat.add_zero] at hok
      simp [ewrGo, hok]
  | succ k ih =>
    intro fuel calls hk hconn hok
    cases fuel with
    | zero => omega
    | succ f =>
      have h0 : backend calls = RResult.conn := by
        have := hconn 0 (by omega)
        simpa using this
      have hf : f ≠ 0 := by omega
      have hstep : ewrGo backend calls (f + 1) = ewrGo backend (calls + 1) f := by
        simp [ewrGo, h0, hf]
      rw [hstep, ih f (calls + 1) (by omega) (fun i hi => by
          rw [show calls + 1 + i = calls + (i + 1) by omega]
          exact hconn (i + 1) (by omega))
        (by rw [show calls + 1 + k = calls + (k + 1) by omega]; exact hok)]
      rw [show calls + 1 + k + 1 = calls + (k + 1) + 1 by omega]

/-- C4: the resilient store retry policy.  A backend that fails
transiently for the first `k < attempts` calls and then succeeds makes
`cache_get` return the (decoded) eventual success value; a backend
that always fails transiently makes `cache_get` and `cache_set` return
an absent/no-op result without raising, while `get` re-raises after
the backend has been tried exactly `attempts` times. -/
theorem C4_retry_policy :
    (∀ (α : Type) (attempts k : Nat) (decode : String → α)
       (backend : Nat → RResult (Option String)) (s : String),
       k < attempts → (∀ i, i < k → backend i = RResult.conn) →
       backend k = RResult.ok (Option.some s) →
       cacheGetM attempts decode backend = (Option.some (decode s), k + 1))
    ∧ (∀ (α : Type) (attempts : Nat) (decode : String → α)
       (bg : Nat → RResult (Option String)),
       1 ≤ attempts → (∀ i, bg i = RResult.conn) →
       cacheGetM attempts decode bg = (Option.none, attempts))
    ∧ (∀ (attempts : Nat) (bs : Nat → RResult Bool),
       1 ≤ attempts → (∀ i, bs i = RResult.conn) →
       cacheSetM attempts bs = (Option.none, attempts))
    ∧ (∀ (attempts : Nat) (bl : Nat → RResult (List String)),
       1 ≤ attempts → (∀ i, bl i = RResult.conn) →
       getListM attempts bl = (Except.error (), attempts)) := by
  refine ⟨?_, ?_, ?_, ?_⟩
  · intro α attempts k decode backend s hk hconn hok
    have := ewrGo_first_success backend (Option.some s) k attempts 0 hk
      (fun i hi => by simpa using hconn i hi) (by simpa using hok)
    simp only [cacheGetM, executeWithReconnect, this, Nat.zero_add]
  · intro α attempts decode bg h1 hconn
    have := ewrGo_all_conn bg attempts 0 h1 (fun i _ => hconn (0 + i))
    simp only [cacheGetM, executeWithReconnect, this, Nat.zero_add]
  · intro attempts bs h1 hconn
    have := ewrGo_all_conn bs attempts 0 h1 (fun i _ => hconn (0 + i))
    simp only [cacheSetM, executeWithReconnect, this, Nat.zero_add]
  · intro attempts bl h1 hconn
    have := ewrGo_all_conn bl attempts 0 h1 (fun i _ => hconn (0 + i))
    simp only [getListM, executeWithReconnect, this, Nat.zero_add]

/-- Witness: with three attempts and one leading failure `cache_get`
returns the decoded success at the second call; with two attempts and
a dead backend `cache_get` and `cache_set` return absent after two
tries while `get` raises after two tries. -/
theorem C4_retry_policy_witness :
    cacheGetM 3 (fun s => s)
      (fun i => if i == 0 then RResult.conn else RResult.ok (Option.some "1.5")) =
      (Option.some "1.5", 2)
    ∧ cacheGetM 2 (fun s => s) (fun _ => RResult.conn) = (Option.none, 2)
    ∧ cacheSetM 2 (fun _ => RResult.conn) = (Option.none, 2)
    ∧ getListM 2 (fun _ => RResult.conn) = (Except.error (), 2) := by
  refine ⟨?_, ?_, ?_, ?_⟩
  · exact C4_retry_policy.1 String 3 1 (fun s => s)
      (fun i => if i == 0 then RResult.conn else RResult.ok (Option.some "1.5")) "1.5"
      (by omega) (fun i hi => by
        have h0 : i = 0 := Nat.lt_one_iff.mp hi
        subst h0
        rfl) rfl
  · exact C4_retry_policy.2.1 String 2 (fun s => s) (fun _ => RResult.conn)
      (by omega) (fun _ => rfl)
  · exact C4_retry_policy.2.2.1 2 (fun _ => RResult.conn) (by omega) (fun _ => rfl)
  · exact C4_retry_policy.2.2.2 2 (fun _ => RResult.conn) (by omega) (fun _ => rfl)

/-- C6: authentication.  `check_auth` accepts exactly when the supplied
token equals the expected digest byte for byte: for the admin login the
digest hashes the hour string plus the admin secret (so it is
independent of every other part of the request, in particular of
`account`), otherwise it hashes `account + login + shared secret`. -/
theorem C6_check_auth (sha : String → String) (hour : String) (acct : PyVal)
    (login token : String) :
    (login = "admin" →
      (checkAuth sha hour acct login token = Except.ok true ↔ token = sha (hour ++ "42"))
      ∧ ∀ acct2 : PyVal, checkAuth sha hour acct login token =
          checkAuth sha hour acct2 login token)
    ∧ (∀ a : String, login ≠ "admin" → acct = PyVal.str a →
      (checkAuth sha hour acct login token = Except.ok true ↔
        token = sha (a ++ login ++ "Otus"))) := by
  constructor
  · intro hl
    subst hl
    constructor
    · simp [checkAuth]
      exact eq_comm
    · intro acct2
      simp [checkAuth]
  · intro a hl ha
    subst ha
    have hb : (login == "admin") = false := beq_eq_false_iff_ne.mpr hl
    simp [checkAuth, hb]
    exact eq_comm

/-- Witness: an admin token matching the hour digest is accepted even
with `account = None`; a non-admin token matching the account-login
digest is accepted. -/
theorem C6_check_auth_witness :
    checkAuth (fun s => "H" ++ s) "2018052011" PyVal.none "admin" "H201805201142" =
      Except.ok true
    ∧ checkAuth (fun s => "H" ++ s) "2018052011" (PyVal.str "acc") "h&f" "Hacch&fOtus" =
      Except.ok true := by
  constructor
  · exact ((C6_check_auth (fun s => "H" ++ s) "2018052011" PyVal.none "admin"
      "H201805201142").1 rfl).1.mpr rfl
  · exact (C6_check_auth (fun s => "H" ++ s) "2018052011" (PyVal.str "acc") "h&f"
      "Hacch&fOtus").2 "acc" (by decide) rfl |>.mpr rfl

/-- C9: for the admin identity, a valid online-score request is
answered with the fixed payload score 42 and status 200, and the store
state is returned untouched — `get_score` and the cache are never
consulted. -/
theorem C9_admin_score_42 (md5hex : String → String) (now : Date)
    (data : List (String × PyVal)) (st : StoreState) (cd : List (String × PyVal))
    (h : osrIsValidA now data = Except.ok (true, cd)) :
    osrHandlerA md5hex now data st true = Except.ok ((Resp.score 42, 200), st) := by
  simp [osrHandlerA, h]

/-- Witness: concrete valid phone+email arguments under the admin
identity give score 42 with the store untouched. -/
theorem C9_admin_score_42_witness :
    osrHandlerA (fun s => s) nowMay2018 osrDataC9 emptyStore true =
      Except.ok ((Resp.score 42, 200), emptyStore) :=
  C9_admin_score_42 (fun s => s) nowMay2018 osrDataC9 emptyStore _ rfl

/-- C10: a validated non-admin method request whose optional `account`
cleaned to `None` makes `check_auth` raise (`None + str` is a
`TypeError`) instead of returning false; the exception escapes
`method_handler` and surfaces at the transport as status 500, not as
the 403 of an authentication failure. -/
theorem C10_none_account_500 (sha : String → String) (hour : String) (now : Date)
    (osH : List (String × PyVal) → Bool → Except Unit (Option Resp × Nat))
    (ciH : List (String × PyVal) → Except Unit (Option Resp × Nat))
    (body : List (String × PyVal)) (l : String)
    (hne : body ≠ [])
    (hv : (cleanFields now msrFields body).2 = [])
    (hacct : lookupD (cleanFields now msrFields body).1 "account" = PyVal.none)
    (hlogin : lookupD (cleanFields now msrFields body).1 "login" = PyVal.str l)
    (hl : l ≠ "admin") :
    methodHandler sha hour now osH ciH body = Except.error ()
    ∧ doPostCode (methodHandler sha hour now osH ciH body) = 500 := by
  have hbody : body.isEmpty = false := by
    cases body with
    | nil => exact absurd rfl hne
    | cons hd tl => rfl
  have hadmin : (l == "admin") = false := beq_eq_false_iff_ne.mpr hl
  have hmain : methodHandler sha hour now osH ciH body = Except.error () := by
    simp [methodHandler, hbody, hv, hacct, hlogin, checkAuth, asStr, hadmin]
  exact ⟨hmain, by rw [hmain]; rfl⟩

/-- Witness: a concrete valid body without an `account` entry, with a
non-admin login, is answered 500. -/
theorem C10_none_account_500_witness :
    methodHandler (fun s => s) "2018052011" nowMay2018
      (fun _ _ => Except.ok (Option.none, 200)) (fun _ => Except.ok (Option.none, 200))
      bodyNoAccount = Except.error ()
    ∧ doPostCode (methodHandler (fun s => s) "2018052011" nowMay2018
      (fun _ _ => Except.ok (Option.none, 200)) (fun _ => Except.ok (Option.none, 200))
      bodyNoAccount) = 500 :=
  C10_none_account_500 (fun s => s) "2018052011" nowMay2018
    (fun _ _ => Except.ok (Option.none, 200)) (fun _ => Except.ok (Option.none, 200))
    bodyNoAccount "h&f" (by simp [bodyNoAccount]) rfl rfl rfl (by decide)
